import Mathlib

/-!
Verification of the admission-control and backpressure core of the
whisper-api-mvp service (`app/main.py`, `app/transcribe.py`, `app/config.py`).

The Python code is shallowly embedded: the counting semaphore becomes an
explicit permit-pool state with acquire/release steps, the endpoint body
`transcribe_endpoint` becomes a pure function from configuration, shared
state and per-request input to a result record (final response, final pool
and metrics state, plus observability fields recording which guard fired,
whether the payload was read, whether the backend was invoked, and how many
releases were performed), and the exception handlers become pure functions
from the raised exception data to the wire-level response.
-/

/- ----------------------------------------------------------------------- -/
/- Permit pool: embedding of `asyncio.Semaphore(MAX_CONCURRENT_JOBS)` as    -/
/- used by `_ensure_semaphore` / `transcribe_endpoint` in app/main.py.      -/
/- `avail` is the semaphore's internal `_value`; `held` counts permits      -/
/- currently held (ghost state: the code releases only after an acquire).   -/
/- ----------------------------------------------------------------------- -/

structure Pool where
  avail : Nat
  held : Nat
  deriving Repr, DecidableEq

/-- A fresh pool with `n` permits available, as built by
`asyncio.Semaphore(settings.MAX_CONCURRENT_JOBS)`. -/
def freshPool (n : Nat) : Pool := ⟨n, 0⟩

/-- Embedding of `_ensure_semaphore` (app/main.py:81-87): reuse the stored
semaphore when present, otherwise create one with `maxJobs` permits. -/
def ensure_semaphore (cur : Option Pool) (maxJobs : Nat) : Pool :=
  match cur with
  | some sem => sem
  | none => freshPool maxJobs

/-- Embedding of `current_active_tasks` (app/main.py:90-95):
`max(0, max_permits - sem._value)`. -/
def current_active_tasks (maxPermits : Nat) (p : Pool) : Nat :=
  max 0 (maxPermits - p.avail)

/-- One admission attempt with no release happening during the wait:
`asyncio.wait_for(sem.acquire(), timeout=...)` grants a permit immediately
when `avail > 0`; otherwise the wait can only elapse (TimeoutError),
modelled as `none`. -/
def acquireStep (p : Pool) : Option Pool :=
  if p.avail > 0 then some ⟨p.avail - 1, p.held + 1⟩ else none

/-- `sem.release()` performed by a holder (the code only releases in the
`finally` block after a successful acquire). -/
def releaseStep (p : Pool) : Pool :=
  ⟨p.avail + 1, p.held - 1⟩

/-- States of the permit pool reachable by the program: start from the pool
created by `_ensure_semaphore`, acquire when a permit is available, and
release only while a permit is held. -/
inductive Reach (n : Nat) : Pool → Prop
  | init : Reach n (ensure_semaphore none n)
  | acq {p p' : Pool} : Reach n p → acquireStep p = some p' → Reach n p'
  | rel {p : Pool} : Reach n p → 0 < p.held → Reach n (releaseStep p)

/-- `k` back-to-back admission attempts with no interleaved release;
`none` as soon as one of them times out. -/
def acquireN : Nat → Pool → Option Pool
  | 0, p => some p
  | k + 1, p => (acquireStep p).bind (acquireN k)

/- ----------------------------------------------------------------------- -/
/- Metrics store: embedding of `METRICS` and `_metrics_record_request`      -/
/- (app/main.py:101-130). Python floats become rationals.                   -/
/- ----------------------------------------------------------------------- -/

structure Metrics where
  total_requests : Nat
  accepted_requests : Nat
  rejected_requests : Nat
  avg_processing_time_ms : Rat
  deriving Repr, DecidableEq

/-- The zero-initialized `METRICS` dict (app/main.py:101-106). -/
def METRICS_init : Metrics := ⟨0, 0, 0, 0⟩

/-- Embedding of `_metrics_record_request` (app/main.py:119-130): bump the
total, bump exactly one of accepted/rejected, and fold `duration_ms` into the
running mean `prev_avg + (duration_ms - prev_avg) / max(total, 1)`, clamped
below by `max(0.0, new_avg)`. -/
def _metrics_record_request (accepted : Bool) (duration_ms : Rat) (m : Metrics) : Metrics :=
  let total := m.total_requests + 1
  let prev_avg := m.avg_processing_time_ms
  let new_avg := prev_avg + (duration_ms - prev_avg) / ((max total 1 : Nat) : Rat)
  { total_requests := total
    accepted_requests := if accepted then m.accepted_requests + 1 else m.accepted_requests
    rejected_requests := if accepted then m.rejected_requests else m.rejected_requests + 1
    avg_processing_time_ms := max 0 new_avg }

/-- A finite sequence of `_metrics_record_request` calls starting from the
zero-initialized store. -/
def runMetrics (ops : List (Bool × Rat)) : Metrics :=
  ops.foldl (fun m op => _metrics_record_request op.1 op.2 m) METRICS_init

/- ----------------------------------------------------------------------- -/
/- Transcriber lifecycle: embedding of `WhisperTranscriber.initialize`      -/
/- (app/transcribe.py:70-95). The ambient ffmpeg availability becomes an    -/
/- explicit boolean; logging calls become an explicit effect list.          -/
/- ----------------------------------------------------------------------- -/

structure WhisperTranscriber where
  model_repo : String
  word_timestamps : Bool
  language : Option String
  _initialized : Bool
  deriving Repr, DecidableEq

/-- Observable side effects of one `initialize()` call. -/
inductive InitEffect
  | checkedFfmpeg
  | warnedRepoFormat
  | loggedInitialized
  deriving Repr, DecidableEq

/-- Embedding of `WhisperTranscriber.initialize` (app/transcribe.py:70-95):
return immediately when already initialized; otherwise check ffmpeg (raising
`RuntimeError` when absent), warn when the repo name has no slash, set the
flag and log. The Lean name avoids clashing with reserved words. -/
def WhisperTranscriber.initializeFn (t : WhisperTranscriber) (ffmpegInstalled : Bool) :
    Except String (WhisperTranscriber × List InitEffect) :=
  if t._initialized then Except.ok (t, [])
  else if ffmpegInstalled = false then
    Except.error "ffmpeg is required but not found. Install it with: brew install ffmpeg"
  else
    let warnings := if '/' ∈ t.model_repo.toList then [] else [InitEffect.warnedRepoFormat]
    Except.ok ({ t with _initialized := true },
      InitEffect.checkedFfmpeg :: (warnings ++ [InitEffect.loggedInitialized]))

/-- `n` consecutive `initialize()` calls, accumulating their effects. -/
def initializeMany : Nat → WhisperTranscriber → Bool →
    Except String (WhisperTranscriber × List InitEffect)
  | 0, t, _ => Except.ok (t, [])
  | n + 1, t, ff =>
      match t.initializeFn ff with
      | Except.error e => Except.error e
      | Except.ok (t', effs) =>
          match initializeMany n t' ff with
          | Except.error e => Except.error e
          | Except.ok (t'', effs') => Except.ok (t'', effs ++ effs')

/- ----------------------------------------------------------------------- -/
/- Error envelope and exception handlers (app/main.py:47-75, 165-200).      -/
/- ----------------------------------------------------------------------- -/

/-- Embedding of `_status_phrase` (app/main.py:47-51), i.e.
`HTTPStatus(code).phrase`, spelled out for the status codes this service
emits ("Error" is the fallback for unknown codes). -/
def _status_phrase (code : Nat) : String :=
  if code = 200 then "OK"
  else if code = 400 then "Bad Request"
  else if code = 403 then "Forbidden"
  else if code = 413 then "Request Entity Too Large"
  else if code = 415 then "Unsupported Media Type"
  else if code = 500 then "Internal Server Error"
  else if code = 503 then "Service Unavailable"
  else "Error"

/-- The `details` field of the envelope: a string, a list of strings, or
JSON null. -/
inductive ErrDetails
  | nullD
  | strD (s : String)
  | listD (l : List String)
  deriving Repr, DecidableEq

/-- The unified error shape of `_error_envelope` (app/main.py:54-65). -/
structure Envelope where
  error : String
  code : Nat
  details : ErrDetails
  deriving Repr, DecidableEq

/-- Embedding of `_error_envelope` (app/main.py:54-65); `err` is the
optional `error=` keyword, defaulted to the status phrase. -/
def _error_envelope (code : Nat) (details : ErrDetails) (err : Option String) : Envelope :=
  { error := err.getD (_status_phrase code)
    code := code
    details := details }

/-- The data of a raised `HTTPException`: status code, optional detail,
and the headers attached at raise time. -/
structure HTTPExc where
  status_code : Nat
  detail : Option String
  headers : List (String × String)
  deriving Repr, DecidableEq

/-- A JSON response body: either the success payload or an envelope. -/
inductive Body
  | textBody (text : String)
  | envBody (e : Envelope)
  deriving Repr, DecidableEq

/-- A wire-level response: status, JSON body, extra response headers. -/
structure HttpResponse where
  status : Nat
  body : Body
  headers : List (String × String)
  deriving Repr, DecidableEq

/-- Embedding of `_http_exception_handler` (app/main.py:165-174): build a
`JSONResponse` from the exception's status code and stringified detail.
Note the source passes only `status_code` and `content` to `JSONResponse`,
so `exc.headers` is NOT forwarded to the response. -/
def _http_exception_handler (exc : HTTPExc) : HttpResponse :=
  let details : ErrDetails :=
    match exc.detail with
    | none => ErrDetails.nullD
    | some s => ErrDetails.strD s
  { status := exc.status_code
    body := Body.envBody (_error_envelope exc.status_code details none)
    headers := [] }

/-- Embedding of `_validation_exception_handler` (app/main.py:177-184):
`msgs` is the flattened non-empty message list. The handler reads no other
state and in particular never touches `METRICS`; the metrics store is
threaded through unchanged to make that explicit. -/
def _validation_exception_handler (msgs : List String) (m : Metrics) :
    HttpResponse × Metrics :=
  ({ status := 400
     body := Body.envBody (_error_envelope 400 (ErrDetails.listD msgs) none)
     headers := [] }, m)

/-- Embedding of `_unhandled_exception_handler` (app/main.py:195-200) (and
`_value_error_handler`, which builds the identical response): a generic 500
envelope with null details, independent of the exception. -/
def _unhandled_exception_handler : HttpResponse :=
  { status := 500
    body := Body.envBody (_error_envelope 500 ErrDetails.nullD none)
    headers := [] }

/- ----------------------------------------------------------------------- -/
/- Filename extension derivation (app/main.py:277-285, app/config.py:68-73) -/
/- Python strings are modelled as lists of characters.                      -/
/- ----------------------------------------------------------------------- -/

/-- Embedding of Python `s.split(sep)` for a single-character separator
(used as `filename.split(".")` in app/main.py:279): always returns a
non-empty list of segments. -/
def pySplit (sep : Char) : List Char → List (List Char)
  | [] => [[]]
  | c :: rest =>
      match pySplit sep rest with
      | [] => [[]]
      | h :: t => if c = sep then [] :: h :: t else (c :: h) :: t

/-- Embedding of Python `s.lower()` (ASCII-relevant part). -/
def pyLower (l : List Char) : List Char := l.map Char.toLower

/-- Embedding of the suffix computation in `transcribe_endpoint`
(app/main.py:279):
`"." + filename.split(".")[-1].lower() if "." in filename else ""`. -/
def pySuffix (filename : List Char) : List Char :=
  if '.' ∈ filename then '.' :: pyLower ((pySplit '.' filename).getLastD []) else []

/-- Default `ALLOWED_EXTENSIONS` of `Settings` (app/config.py:68-73). -/
def defaultAllowedExtensions : List (List Char) :=
  [".mp3".toList, ".wav".toList, ".m4a".toList, ".flac".toList,
   ".webm".toList, ".mp4".toList, ".avi".toList, ".mov".toList]

/-- The substring after the last dot of a list of characters, written
structurally: skip ahead while a dot remains further right. -/
def subAfterLastDot : List Char → List Char
  | [] => []
  | c :: rest =>
      if '.' ∈ rest then subAfterLastDot rest
      else if c = '.' then rest
      else c :: rest

/-- The extension as the spec words it: the substring after the last `.`
in the filename, lower-cased; the empty string if no `.` is present. -/
def spec_derived_extension (filename : List Char) : List Char :=
  if '.' ∈ filename then pyLower (subAfterLastDot filename) else []

/-- The spec's allowlist, without the leading dots: mp3, wav, m4a, flac,
webm, mp4, avi, mov. -/
def specAllowedExtensions : List (List Char) :=
  ["mp3".toList, "wav".toList, "m4a".toList, "flac".toList,
   "webm".toList, "mp4".toList, "avi".toList, "mov".toList]

/- ----------------------------------------------------------------------- -/
/- The /v1/transcribe endpoint (app/main.py:253-330).                       -/
/- ----------------------------------------------------------------------- -/

/-- Outcome of the protected span (`transcriber.initialize()` plus
`transcriber.transcribe(...)`): a text, an exception of one of the caught
classes (`RuntimeError`/`ValueError`/`OSError`), or any other exception. -/
inductive BackendOutcome
  | ok (text : String)
  | failCaught (msg : String)
  | failUncaught (msg : String)
  deriving Repr, DecidableEq

/-- Which guard rejected the request. -/
inductive GuardKind
  | memory
  | extension
  | size
  | admission
  deriving Repr, DecidableEq

/-- The configuration fields the endpoint consumes (app/config.py). -/
structure Config where
  MAX_MEMORY_THRESHOLD : Rat
  ALLOWED_EXTENSIONS : List (List Char)
  MAX_FILE_SIZE_BYTES : Nat
  MAX_CONCURRENT_JOBS : Nat
  deriving Repr, DecidableEq

/-- The `Settings` defaults (app/config.py:49-81). -/
def defaultSettings : Config :=
  { MAX_MEMORY_THRESHOLD := 85
    ALLOWED_EXTENSIONS := defaultAllowedExtensions
    MAX_FILE_SIZE_BYTES := 200 * 1024 * 1024
    MAX_CONCURRENT_JOBS := 4 }

/-- The process-wide mutable state the endpoint touches: the semaphore and
the metrics store. -/
structure SysState where
  pool : Pool
  metrics : Metrics
  deriving Repr, DecidableEq

/-- Per-request input: the sampled memory percentage, the uploaded file's
name and size, the measured wall-clock duration of the protected span, and
the backend outcome. -/
structure EndpointInput where
  memPercent : Rat
  filename : Option (List Char)
  dataLen : Nat
  elapsedMs : Rat
  backend : BackendOutcome
  deriving Repr, DecidableEq

/-- Everything observable about one endpoint invocation: the wire response,
the `HTTPException` raised (if any), the final pool and metrics, and ghost
flags for the frame conditions (payload read, backend invoked, permit
acquired, number of `sem.release()` calls, rejecting guard). -/
structure EndpointResult where
  response : HttpResponse
  raised : Option HTTPExc
  pool : Pool
  metrics : Metrics
  payloadRead : Bool
  backendCalled : Bool
  acquired : Bool
  releases : Nat
  rejectedBy : Option GuardKind
  deriving Repr, DecidableEq

/-- `filename = file.filename or "upload"` (app/main.py:278): `None` and
the empty string both fall back to `"upload"`. -/
def effFilename (fn : Option (List Char)) : List Char :=
  match fn with
  | none => "upload".toList
  | some f => if f = [] then "upload".toList else f

/-- Shape shared by the four rejection paths of `transcribe_endpoint`:
record the rejection with zero duration, raise an `HTTPException`, and let
the registered `_http_exception_handler` build the wire response. -/
def rejectOutcome (st : SysState) (g : GuardKind) (exc : HTTPExc) (payloadRead : Bool) :
    EndpointResult :=
  { response := _http_exception_handler exc
    raised := some exc
    pool := st.pool
    metrics := _metrics_record_request false 0 st.metrics
    payloadRead := payloadRead
    backendCalled := false
    acquired := false
    releases := 0
    rejectedBy := some g }

/-- The 415 detail text `f"Unsupported file type: ..."` (app/main.py:284),
with `suffix or 'unknown'` for an empty suffix. -/
def unsupportedTypeMsg (suffix : List Char) : String :=
  "Unsupported file type: " ++ (if suffix = [] then "unknown" else String.mk suffix)

/-- Embedding of `transcribe_endpoint` (app/main.py:253-330), in source
order: memory-pressure guard, extension allowlist, payload read and size
guard, semaphore acquisition with timeout, then the protected span whose
`finally` releases the permit on every exit path. An uncaught exception
class bypasses both the metrics update and the `HTTPException` conversion
and is answered by `_unhandled_exception_handler`. -/
def transcribe_endpoint (cfg : Config) (st : SysState) (inp : EndpointInput) :
    EndpointResult :=
  if inp.memPercent > cfg.MAX_MEMORY_THRESHOLD then
    rejectOutcome st GuardKind.memory
      ⟨503, some "Service under memory pressure. Please try again later.", []⟩ false
  else if pySuffix (effFilename inp.filename) ∉ cfg.ALLOWED_EXTENSIONS then
    rejectOutcome st GuardKind.extension
      ⟨415, some (unsupportedTypeMsg (pySuffix (effFilename inp.filename))), []⟩ false
  else if inp.dataLen > cfg.MAX_FILE_SIZE_BYTES then
    rejectOutcome st GuardKind.size
      ⟨413, some "File exceeds maximum allowed size.", []⟩ true
  else
    match acquireStep st.pool with
    | none =>
        rejectOutcome st GuardKind.admission
          ⟨503, some "All workers are currently busy. Please try again later.",
            [("Retry-After", "30")]⟩ true
    | some p1 =>
        match inp.backend with
        | BackendOutcome.ok text =>
            { response := ⟨200, Body.textBody text, []⟩
              raised := none
              pool := releaseStep p1
              metrics := _metrics_record_request true inp.elapsedMs st.metrics
              payloadRead := true
              backendCalled := true
              acquired := true
              releases := 1
              rejectedBy := none }
        | BackendOutcome.failCaught _ =>
            { response := _http_exception_handler ⟨500, some "Transcription failed.", []⟩
              raised := some ⟨500, some "Transcription failed.", []⟩
              pool := releaseStep p1
              metrics := _metrics_record_request false inp.elapsedMs st.metrics
              payloadRead := true
              backendCalled := true
              acquired := true
              releases := 1
              rejectedBy := none }
        | BackendOutcome.failUncaught _ =>
            { response := _unhandled_exception_handler
              raised := none
              pool := releaseStep p1
              metrics := st.metrics
              payloadRead := true
              backendCalled := true
              acquired := true
              releases := 1
              rejectedBy := none }

/- Concrete fixtures for closed evaluations. -/

/-- A small concrete configuration: defaults except a 1 KiB size limit and
a single worker. -/
def cfgSmall : Config := ⟨85, defaultAllowedExtensions, 1024, 1⟩

/-- Fresh one-permit system state with zero metrics. -/
def stFresh : SysState := ⟨freshPool 1, METRICS_init⟩

/-- Saturated system state: the single permit is held. -/
def stBusy : SysState := ⟨⟨0, 1⟩, METRICS_init⟩

/-- A well-formed request: 42% memory, `sample.wav`, 100 bytes, 5 ms, and
a backend answering "hello world". -/
def reqOk : EndpointInput :=
  ⟨42, some "sample.wav".toList, 100, 5, BackendOutcome.ok "hello world"⟩

/- ----------------------------------------------------------------------- -/
/- Lemmas and claim theorems.                                               -/
/- ----------------------------------------------------------------------- -/

lemma reach_avail_add_held (n : Nat) {p : Pool} (h : Reach n p) :
    p.avail + p.held = n := by
  induction h with
  | init => simp [ensure_semaphore, freshPool]
  | acq hr hstep ih =>
      revert hstep
      unfold acquireStep
      split
      · rename_i hpos
        intro hstep
        cases hstep
        simp only []
        omega
      · intro hstep
        cases hstep
  | rel hr hheld ih =>
      simp only [releaseStep]
      omega

lemma acquireN_all {k a h : Nat} (hk : k ≤ a) :
    acquireN k ⟨a, h⟩ = some ⟨a - k, h + k⟩ := by
  induction k generalizing a h with
  | zero => simp [acquireN]
  | succ m ih =>
      have hpos : 0 < a := by omega
      simp only [acquireN, acquireStep, hpos, if_pos, Option.bind]
      rw [ih (by omega)]
      congr 1
      simp only [Pool.mk.injEq]
      omega

/-- Claim C1: with a pool of `n` permits, (i) every reachable pool state holds at
most `n` permits and the code's `current_active_tasks` reports exactly the
held count; (ii) starting from the freshly created pool, `n` admission
attempts with no releases all succeed, saturating the pool; (iii) the
(n+1)-th attempt finds no permit and can only time out; (iv) if some holder
releases during the wait, the pending attempt succeeds and the pool is
saturated again. -/
theorem C1_admission_bound (n : Nat) :
    (∀ p : Pool, Reach n p → p.held ≤ n ∧ current_active_tasks n p = p.held) ∧
    acquireN n (ensure_semaphore none n) = some ⟨0, n⟩ ∧
    acquireStep ⟨0, n⟩ = none ∧
    (0 < n → acquireStep (releaseStep ⟨0, n⟩) = some ⟨0, n⟩) := by
  refine ⟨?_, ?_, ?_, ?_⟩
  · intro p hp
    have hsum := reach_avail_add_held n hp
    constructor
    · omega
    · simp only [current_active_tasks]
      omega
  · simpa [ensure_semaphore, freshPool] using acquireN_all (k := n) (a := n) (h := 0) le_rfl
  · simp [acquireStep]
  · intro hn
    simp [releaseStep, acquireStep, Pool.mk.injEq]
    omega

/-- Witness for C1 at `n = 2`, with the reachable state obtained by one
acquire after creation. -/
theorem C1_admission_bound_witness :
    (Pool.mk 1 1).held ≤ 2 ∧ current_active_tasks 2 ⟨1, 1⟩ = 1 ∧
    acquireStep (releaseStep ⟨0, 2⟩) = some ⟨0, 2⟩ := by
  have h := C1_admission_bound 2
  have hreach : Reach 2 ⟨1, 1⟩ :=
    Reach.acq Reach.init (by simp [ensure_semaphore, freshPool, acquireStep])
  have h1 := h.1 ⟨1, 1⟩ hreach
  exact ⟨h1.1, h1.2, h.2.2.2 (by norm_num)⟩

lemma metrics_record_step (a : Bool) (d : Rat) (m : Metrics)
    (h : m.accepted_requests + m.rejected_requests = m.total_requests) :
    (_metrics_record_request a d m).accepted_requests
        + (_metrics_record_request a d m).rejected_requests
      = (_metrics_record_request a d m).total_requests ∧
    0 ≤ (_metrics_record_request a d m).avg_processing_time_ms := by
  cases a <;> simp [_metrics_record_request, le_max_left] <;> omega

lemma runMetrics_foldl_inv (ops : List (Bool × Rat)) (m : Metrics)
    (h : m.accepted_requests + m.rejected_requests = m.total_requests)
    (h0 : 0 ≤ m.avg_processing_time_ms) :
    (ops.foldl (fun m op => _metrics_record_request op.1 op.2 m) m).accepted_requests
        + (ops.foldl (fun m op => _metrics_record_request op.1 op.2 m) m).rejected_requests
      = (ops.foldl (fun m op => _metrics_record_request op.1 op.2 m) m).total_requests ∧
    0 ≤ (ops.foldl (fun m op => _metrics_record_request op.1 op.2 m) m).avg_processing_time_ms := by
  induction ops generalizing m with
  | nil => exact ⟨h, h0⟩
  | cons op rest ih =>
      have hstep := metrics_record_step op.1 op.2 m h
      exact ih _ hstep.1 hstep.2

/-- Claim C6: after any finite sequence of record operations from the
zero-initialized store, `accepted_requests + rejected_requests =
total_requests` and the running average is nonnegative; moreover each single
record call increments `total_requests` by one and exactly one of
`accepted_requests` / `rejected_requests` by one, leaving the other
unchanged. -/
theorem C6_metrics_invariant :
    (∀ ops : List (Bool × Rat),
      (runMetrics ops).accepted_requests + (runMetrics ops).rejected_requests
          = (runMetrics ops).total_requests ∧
      0 ≤ (runMetrics ops).avg_processing_time_ms) ∧
    (∀ (m : Metrics) (a : Bool) (d : Rat),
      (_metrics_record_request a d m).total_requests = m.total_requests + 1 ∧
      (_metrics_record_request a d m).accepted_requests
          = (if a then m.accepted_requests + 1 else m.accepted_requests) ∧
      (_metrics_record_request a d m).rejected_requests
          = (if a then m.rejected_requests else m.rejected_requests + 1)) := by
  constructor
  · intro ops
    exact runMetrics_foldl_inv ops METRICS_init (by simp [METRICS_init]) (by simp [METRICS_init])
  · intro m a d
    cases a <;> simp [_metrics_record_request]

/-- Claim C9: after one successful `initialize()` call the flag is set, and
every subsequent call — under any ffmpeg availability, repeated any number
of times — succeeds, produces no further side effects and leaves the
transcriber state unchanged. -/
theorem C9_initialize_idempotent (ff : Bool) (t t' : WhisperTranscriber)
    (effs : List InitEffect)
    (h : t.initializeFn ff = Except.ok (t', effs)) :
    t'._initialized = true ∧
    (∀ ff' : Bool, t'.initializeFn ff' = Except.ok (t', [])) ∧
    (∀ (n : Nat) (ff' : Bool), initializeMany n t' ff' = Except.ok (t', [])) := by
  have hinit : t'._initialized = true := by
    unfold WhisperTranscriber.initializeFn at h
    split at h
    · rename_i hi
      simp only [Except.ok.injEq, Prod.mk.injEq] at h
      rw [← h.1]
      exact hi
    · split at h
      · exact Except.noConfusion h
      · simp only [Except.ok.injEq, Prod.mk.injEq] at h
        rw [← h.1]
  have hrepeat : ∀ ff' : Bool, t'.initializeFn ff' = Except.ok (t', []) := by
    intro ff'
    simp [WhisperTranscriber.initializeFn, hinit]
  refine ⟨hinit, hrepeat, ?_⟩
  intro n ff'
  induction n with
  | zero => rfl
  | succ k ih =>
      simp [initializeMany, hrepeat ff', ih]

/-- Witness for C9: a concrete transcriber built like the module-level one
(`dummy-repo`, no word timestamps, auto language), initialized once with
ffmpeg present. -/
theorem C9_initialize_idempotent_witness :
    WhisperTranscriber.initializeFn ⟨"dummy-repo", false, none, true⟩ false
      = Except.ok (⟨"dummy-repo", false, none, true⟩, []) := by
  exact (C9_initialize_idempotent true ⟨"dummy-repo", false, none, false⟩
    ⟨"dummy-repo", false, none, true⟩
    [InitEffect.checkedFfmpeg, InitEffect.warnedRepoFormat, InitEffect.loggedInitialized]
    rfl).2.1 false

lemma pySplit_ne_nil (sep : Char) (l : List Char) : pySplit sep l ≠ [] := by
  cases l with
  | nil => simp [pySplit]
  | cons c rest =>
      cases hr : pySplit sep rest with
      | nil => simp [pySplit, hr]
      | cons h t =>
          simp only [pySplit, hr]
          split <;> simp

lemma pySplit_expand (sep c : Char) (rest : List Char) :
    ∃ h t, pySplit sep rest = h :: t ∧
      pySplit sep (c :: rest) = if c = sep then [] :: h :: t else (c :: h) :: t := by
  cases hr : pySplit sep rest with
  | nil => exact absurd hr (pySplit_ne_nil sep rest)
  | cons h t => exact ⟨h, t, rfl, by simp [pySplit, hr]⟩

lemma pySplit_no_sep {sep : Char} {l : List Char} (h : sep ∉ l) :
    pySplit sep l = [l] := by
  induction l with
  | nil => simp [pySplit]
  | cons c rest ih =>
      obtain ⟨hh, t, hr, hsplit⟩ := pySplit_expand sep c rest
      have hc : c ≠ sep := fun hc => h (hc ▸ List.mem_cons_self c rest)
      have hrest : sep ∉ rest := fun hm => h (List.mem_cons_of_mem c hm)
      rw [ih hrest] at hr
      cases hr
      rw [hsplit, if_neg hc]

lemma pySplit_mem_len {sep : Char} {l : List Char} (h : sep ∈ l) :
    2 ≤ (pySplit sep l).length := by
  induction l with
  | nil => cases h
  | cons c rest ih =>
      obtain ⟨hh, t, hr, hsplit⟩ := pySplit_expand sep c rest
      by_cases hc : c = sep
      · rw [hsplit, if_pos hc]
        simp
      · have hrest : sep ∈ rest := by
          rcases List.mem_cons.mp h with h1 | h1
          · exact absurd h1.symm hc
          · exact h1
        have := ih hrest
        rw [hr] at this
        rw [hsplit, if_neg hc]
        simp only [List.length_cons] at this ⊢
        omega

lemma getLastD_irrel {α : Type} (t : List α) (ht : t ≠ []) (d d' : α) :
    t.getLastD d = t.getLastD d' := by
  cases t with
  | nil => exact absurd rfl ht
  | cons y t' => rw [List.getLastD_cons, List.getLastD_cons]

lemma subAfterLastDot_no_dot {l : List Char} (h : '.' ∉ l) :
    subAfterLastDot l = l := by
  cases l with
  | nil => rfl
  | cons c rest =>
      have hrest : '.' ∉ rest := fun hm => h (List.mem_cons_of_mem c hm)
      have hc : c ≠ '.' := fun hc => h (hc ▸ List.mem_cons_self c rest)
      simp [subAfterLastDot, hrest, hc]

/-- The last segment delivered by `filename.split(".")[-1]` is exactly the
substring after the last dot. -/
lemma pySplit_getLastD (l : List Char) :
    (pySplit '.' l).getLastD [] = subAfterLastDot l := by
  induction l with
  | nil => simp [pySplit, subAfterLastDot]
  | cons c rest ih =>
      obtain ⟨hh, t, hr, hsplit⟩ := pySplit_expand '.' c rest
      have hmid : t.getLastD hh = subAfterLastDot rest := by
        have h2 : (hh :: t).getLastD [] = subAfterLastDot rest := hr ▸ ih
        rwa [List.getLastD_cons] at h2
      by_cases hc : c = '.'
      · rw [hsplit, if_pos hc, List.getLastD_cons, List.getLastD_cons, hmid]
        by_cases hdot : '.' ∈ rest
        · simp [subAfterLastDot, hc, hdot]
        · rw [subAfterLastDot_no_dot hdot]
          simp [subAfterLastDot, hc, hdot]
      · rw [hsplit, if_neg hc, List.getLastD_cons]
        by_cases hdot : '.' ∈ rest
        · have hlen := pySplit_mem_len hdot
          rw [hr] at hlen
          have ht : t ≠ [] := by
            cases t with
            | nil => simp at hlen
            | cons z t'' => simp
          rw [getLastD_irrel t ht (c :: hh) hh, hmid]
          simp [subAfterLastDot, hdot]
        · have hone : pySplit '.' rest = [rest] := pySplit_no_sep hdot
          rw [hone] at hr
          cases hr
          simp [subAfterLastDot, hdot, hc, List.getLastD_cons]

lemma defaultAllowed_eq_map :
    defaultAllowedExtensions = specAllowedExtensions.map (fun e => '.' :: e) := by
  decide

/-- Dotted-versus-undotted membership: the code compares `"." + ext` against
the dotted allowlist, the spec compares `ext` against the undotted one. -/
lemma mem_dotted_iff (e : List Char) :
    ('.' :: e) ∈ defaultAllowedExtensions ↔ e ∈ specAllowedExtensions := by
  rw [defaultAllowed_eq_map]
  simp [List.mem_map]

lemma release_after_acquire {p p' : Pool} (h : acquireStep p = some p') :
    releaseStep p' = p := by
  cases p with
  | mk a hd =>
      unfold acquireStep at h
      by_cases ha : a > 0
      · rw [if_pos ha] at h
        cases h
        simp only [releaseStep, Pool.mk.injEq]
        omega
      · rw [if_neg ha] at h
        exact Option.noConfusion h

/-- Claim C2: the endpoint never leaks or double-releases a permit: the
final pool always equals the pre-request pool; every invocation that
acquired a permit performed exactly one release, and every invocation that
did not acquire (pre-admission rejection or admission timeout) performed
none. -/
theorem C2_release_balance (cfg : Config) (st : SysState) (inp : EndpointInput) :
    (transcribe_endpoint cfg st inp).pool = st.pool ∧
    ((transcribe_endpoint cfg st inp).acquired = true →
      (transcribe_endpoint cfg st inp).releases = 1) ∧
    ((transcribe_endpoint cfg st inp).acquired = false →
      (transcribe_endpoint cfg st inp).releases = 0) := by
  unfold transcribe_endpoint
  by_cases h1 : inp.memPercent > cfg.MAX_MEMORY_THRESHOLD
  · rw [if_pos h1]
    simp [rejectOutcome]
  · rw [if_neg h1]
    by_cases h2 : pySuffix (effFilename inp.filename) ∈ cfg.ALLOWED_EXTENSIONS
    · rw [if_neg (not_not_intro h2)]
      by_cases h3 : inp.dataLen > cfg.MAX_FILE_SIZE_BYTES
      · rw [if_pos h3]
        simp [rejectOutcome]
      · rw [if_neg h3]
        cases hacq : acquireStep st.pool with
        | none => simp [rejectOutcome]
        | some p1 =>
            have hrel := release_after_acquire hacq
            cases hb : inp.backend <;> simp [hrel]
    · rw [if_pos h2]
      simp [rejectOutcome]

/-- Witness for C2: a request that passes all guards and succeeds, on a
one-permit pool. -/
theorem C2_release_balance_witness :
    (transcribe_endpoint
        ⟨85, defaultAllowedExtensions, 1024, 1⟩
        ⟨freshPool 1, METRICS_init⟩
        ⟨42, some "sample.wav".toList, 100, 5, BackendOutcome.ok "hello world"⟩).pool
      = (⟨freshPool 1, METRICS_init⟩ : SysState).pool ∧
    (transcribe_endpoint
        ⟨85, defaultAllowedExtensions, 1024, 1⟩
        ⟨freshPool 1, METRICS_init⟩
        ⟨42, some "sample.wav".toList, 100, 5, BackendOutcome.ok "hello world"⟩).releases = 1 := by
  refine ⟨(C2_release_balance _ _ _).1, (C2_release_balance _ _ _).2.1 ?_⟩
  decide

/-- Counterexample to claim C3 as stated: when the backend raises
`RuntimeError("boom")` — one of the caught classes — the endpoint converts
it to `HTTPException(500, detail="Transcription failed.")`, so the 500
envelope's details field is the string "Transcription failed.", not null. -/
theorem C3_counterexample :
    (transcribe_endpoint cfgSmall stFresh
        { reqOk with backend := BackendOutcome.failCaught "boom" }).response
      = ⟨500, Body.envBody ⟨"Internal Server Error", 500,
          ErrDetails.strD "Transcription failed."⟩, []⟩ ∧
    ErrDetails.strD "Transcription failed." ≠ ErrDetails.nullD := by
  exact ⟨by decide, by decide⟩

/-- Claim C3 (amended): whenever the backend call raises, the 500 response
is independent of the exception and its message: for the caught classes
(RuntimeError/ValueError/OSError) the envelope's details is the fixed
string "Transcription failed.", and for any other exception class the
details is null; in both cases the exception message appears nowhere in the
response. -/
theorem C3_backend_failure_no_leak (cfg : Config) (st : SysState)
    (inp : EndpointInput) (msg : String) :
    ((transcribe_endpoint cfg st inp).backendCalled = true →
      inp.backend = BackendOutcome.failCaught msg →
      (transcribe_endpoint cfg st inp).response
        = ⟨500, Body.envBody ⟨"Internal Server Error", 500,
            ErrDetails.strD "Transcription failed."⟩, []⟩) ∧
    ((transcribe_endpoint cfg st inp).backendCalled = true →
      inp.backend = BackendOutcome.failUncaught msg →
      (transcribe_endpoint cfg st inp).response
        = ⟨500, Body.envBody ⟨"Internal Server Error", 500,
            ErrDetails.nullD⟩, []⟩) := by
  unfold transcribe_endpoint
  by_cases h1 : inp.memPercent > cfg.MAX_MEMORY_THRESHOLD
  · rw [if_pos h1]
    simp [rejectOutcome]
  · rw [if_neg h1]
    by_cases h2 : pySuffix (effFilename inp.filename) ∈ cfg.ALLOWED_EXTENSIONS
    · rw [if_neg (not_not_intro h2)]
      by_cases h3 : inp.dataLen > cfg.MAX_FILE_SIZE_BYTES
      · rw [if_pos h3]
        simp [rejectOutcome]
      · rw [if_neg h3]
        cases hacq : acquireStep st.pool with
        | none => simp [rejectOutcome]
        | some p1 =>
            cases hbk : inp.backend <;>
              simp [_http_exception_handler, _error_envelope, _status_phrase,
                _unhandled_exception_handler]
    · rw [if_pos h2]
      simp [rejectOutcome]

/-- Witness for the amended C3: the concrete caught failure from the
counterexample input, evaluated through the theorem. -/
theorem C3_backend_failure_no_leak_witness :
    (transcribe_endpoint cfgSmall stFresh
        { reqOk with backend := BackendOutcome.failCaught "boom" }).response
      = ⟨500, Body.envBody ⟨"Internal Server Error", 500,
          ErrDetails.strD "Transcription failed."⟩, []⟩ :=
  (C3_backend_failure_no_leak cfgSmall stFresh
      { reqOk with backend := BackendOutcome.failCaught "boom" } "boom").1
    (by decide) (by decide)

/-- Claim C4 at the failing input (code-bug evidence): with the pool
saturated, the endpoint raises an `HTTPException` 503 whose headers contain
`Retry-After: 30`, but the registered `_http_exception_handler` builds the
`JSONResponse` without the exception's headers, so the wire response is a
503 envelope with NO Retry-After header. -/
theorem C4_retry_after_dropped :
    (transcribe_endpoint cfgSmall stBusy reqOk).rejectedBy = some GuardKind.admission ∧
    (transcribe_endpoint cfgSmall stBusy reqOk).raised
      = some ⟨503, some "All workers are currently busy. Please try again later.",
          [("Retry-After", "30")]⟩ ∧
    (transcribe_endpoint cfgSmall stBusy reqOk).response.status = 503 ∧
    (transcribe_endpoint cfgSmall stBusy reqOk).response.headers = [] := by
  exact ⟨by decide, by decide, by decide, by decide⟩

/-- Counterexample to claim C5 as stated: a malformed request (missing
`file` field) is answered with the 400 envelope by
`_validation_exception_handler`, but the handler performs no metrics
mutation at all — the store is untouched, not "mutated exactly once". -/
theorem C5_counterexample :
    (_validation_exception_handler ["file: Field required"] METRICS_init).1.status = 400 ∧
    (_validation_exception_handler ["file: Field required"] METRICS_init).2 = METRICS_init ∧
    METRICS_init.total_requests = 0 := by
  exact ⟨rfl, rfl, rfl⟩

/-- Claim C5 (amended): for requests handled by `transcribe_endpoint` the
metrics store is mutated exactly once with the terminal outcome: every
guard rejection (memory, extension, size, admission timeout) records one
rejected request with zero duration; a successful transcription records
one accepted request with the measured duration; a caught backend failure
records one rejected request with the measured duration; an uncaught
exception class records nothing, and requests rejected with 400 by the
validation handler never reach the endpoint and record nothing. -/
theorem C5_metrics_exactly_once (cfg : Config) (st : SysState) (inp : EndpointInput) :
    (∀ g : GuardKind, (transcribe_endpoint cfg st inp).rejectedBy = some g →
      (transcribe_endpoint cfg st inp).metrics
        = _metrics_record_request false 0 st.metrics) ∧
    ((transcribe_endpoint cfg st inp).rejectedBy = none →
      (∀ text, inp.backend = BackendOutcome.ok text →
        (transcribe_endpoint cfg st inp).metrics
          = _metrics_record_request true inp.elapsedMs st.metrics) ∧
      (∀ msg, inp.backend = BackendOutcome.failCaught msg →
        (transcribe_endpoint cfg st inp).metrics
          = _metrics_record_request false inp.elapsedMs st.metrics) ∧
      (∀ msg, inp.backend = BackendOutcome.failUncaught msg →
        (transcribe_endpoint cfg st inp).metrics = st.metrics)) := by
  unfold transcribe_endpoint
  by_cases h1 : inp.memPercent > cfg.MAX_MEMORY_THRESHOLD
  · rw [if_pos h1]
    simp [rejectOutcome]
  · rw [if_neg h1]
    by_cases h2 : pySuffix (effFilename inp.filename) ∈ cfg.ALLOWED_EXTENSIONS
    · rw [if_neg (not_not_intro h2)]
      by_cases h3 : inp.dataLen > cfg.MAX_FILE_SIZE_BYTES
      · rw [if_pos h3]
        simp [rejectOutcome]
      · rw [if_neg h3]
        cases hacq : acquireStep st.pool with
        | none => simp [rejectOutcome]
        | some p1 => cases hbk : inp.backend <;> simp
    · rw [if_pos h2]
      simp [rejectOutcome]

/-- Witness for the amended C5: the admission-timeout rejection on the
saturated pool records exactly one rejected request with zero duration. -/
theorem C5_metrics_exactly_once_witness :
    (transcribe_endpoint cfgSmall stBusy reqOk).metrics
      = _metrics_record_request false 0 stBusy.metrics :=
  (C5_metrics_exactly_once cfgSmall stBusy reqOk).1 GuardKind.admission (by decide)

lemma pySuffix_mem_iff (f : List Char) :
    pySuffix f ∈ defaultAllowedExtensions
      ↔ spec_derived_extension f ∈ specAllowedExtensions := by
  by_cases hdot : '.' ∈ f
  · unfold pySuffix spec_derived_extension
    rw [if_pos hdot, if_pos hdot, pySplit_getLastD]
    exact mem_dotted_iff _
  · unfold pySuffix spec_derived_extension
    rw [if_neg hdot, if_neg hdot]
    constructor
    · intro h
      exact absurd h (by decide)
    · intro h
      exact absurd h (by decide)

lemma rejectedBy_extension_iff (cfg : Config) (st : SysState) (inp : EndpointInput)
    (h1 : ¬ inp.memPercent > cfg.MAX_MEMORY_THRESHOLD) :
    ((transcribe_endpoint cfg st inp).rejectedBy = some GuardKind.extension
      ↔ pySuffix (effFilename inp.filename) ∉ cfg.ALLOWED_EXTENSIONS) ∧
    ((transcribe_endpoint cfg st inp).rejectedBy = some GuardKind.extension →
      (transcribe_endpoint cfg st inp).response.status = 415) := by
  unfold transcribe_endpoint
  rw [if_neg h1]
  by_cases h2 : pySuffix (effFilename inp.filename) ∈ cfg.ALLOWED_EXTENSIONS
  · rw [if_neg (not_not_intro h2)]
    by_cases h3 : inp.dataLen > cfg.MAX_FILE_SIZE_BYTES
    · rw [if_pos h3]
      simp [rejectOutcome, h2]
    · rw [if_neg h3]
      cases hacq : acquireStep st.pool with
      | none => simp [rejectOutcome, h2]
      | some p1 => cases hbk : inp.backend <;> simp [h2]
  · rw [if_pos h2]
    simp [rejectOutcome, _http_exception_handler, h2]

/-- Claim C7: the derived extension is the lower-cased substring after the
last dot (empty when the filename has no dot); the code's dotted-suffix
check against the default `ALLOWED_EXTENSIONS` agrees with the spec's
undotted check; a dotless filename is never allowed; and under the default
settings a request that passes the memory guard is rejected by the
extension guard (with a 415 response) exactly when the spec-derived
extension is outside the allowlist. -/
theorem C7_extension_allowlist (f : List Char) (st : SysState) (inp : EndpointInput) :
    (pySuffix f ∈ defaultAllowedExtensions
      ↔ spec_derived_extension f ∈ specAllowedExtensions) ∧
    ('.' ∉ f → pySuffix f ∉ defaultAllowedExtensions ∧ spec_derived_extension f = []) ∧
    (inp.memPercent ≤ defaultSettings.MAX_MEMORY_THRESHOLD → inp.filename = some f →
      ((transcribe_endpoint defaultSettings st inp).rejectedBy = some GuardKind.extension
        ↔ spec_derived_extension f ∉ specAllowedExtensions) ∧
      ((transcribe_endpoint defaultSettings st inp).rejectedBy = some GuardKind.extension →
        (transcribe_endpoint defaultSettings st inp).response.status = 415)) := by
  refine ⟨pySuffix_mem_iff f, ?_, ?_⟩
  · intro hdot
    unfold pySuffix spec_derived_extension
    rw [if_neg hdot, if_neg hdot]
    exact ⟨by decide, rfl⟩
  · intro hmem hfn
    have h1 : ¬ inp.memPercent > defaultSettings.MAX_MEMORY_THRESHOLD := not_lt.mpr hmem
    have hbase := rejectedBy_extension_iff defaultSettings st inp h1
    have heff : pySuffix (effFilename inp.filename) ∉ defaultSettings.ALLOWED_EXTENSIONS
        ↔ spec_derived_extension f ∉ specAllowedExtensions := by
      rw [hfn]
      show pySuffix (effFilename (some f)) ∉ defaultAllowedExtensions ↔ _
      by_cases hf : f = []
      · subst hf
        simp only [effFilename, if_pos rfl]
        constructor
        · intro _
          decide
        · intro _
          decide
      · simp only [effFilename, if_neg hf]
        exact not_congr (pySuffix_mem_iff f)
    exact ⟨hbase.1.trans heff, hbase.2⟩

/-- Witness for C7: the concrete filename `bad.txt` is rejected by the
extension guard under the default settings. -/
theorem C7_extension_allowlist_witness :
    (transcribe_endpoint defaultSettings stFresh
        { reqOk with filename := some "bad.txt".toList }).rejectedBy
      = some GuardKind.extension :=
  ((C7_extension_allowlist "bad.txt".toList stFresh
      { reqOk with filename := some "bad.txt".toList }).2.2 (by decide) rfl).1.mpr
    (by decide)

/-- Claim C8: every rejection by the memory guard, the extension check or
the size check short-circuits: no permit is acquired, no release happens,
the pool is unchanged, and the backend is never invoked; moreover a
memory-guard rejection happens before the payload is read. -/
theorem C8_preadmission_frame (cfg : Config) (st : SysState) (inp : EndpointInput) :
    ((transcribe_endpoint cfg st inp).rejectedBy = some GuardKind.memory ∨
     (transcribe_endpoint cfg st inp).rejectedBy = some GuardKind.extension ∨
     (transcribe_endpoint cfg st inp).rejectedBy = some GuardKind.size →
      (transcribe_endpoint cfg st inp).acquired = false ∧
      (transcribe_endpoint cfg st inp).releases = 0 ∧
      (transcribe_endpoint cfg st inp).pool = st.pool ∧
      (transcribe_endpoint cfg st inp).backendCalled = false) ∧
    ((transcribe_endpoint cfg st inp).rejectedBy = some GuardKind.memory →
      (transcribe_endpoint cfg st inp).payloadRead = false) := by
  unfold transcribe_endpoint
  by_cases h1 : inp.memPercent > cfg.MAX_MEMORY_THRESHOLD
  · rw [if_pos h1]
    simp [rejectOutcome]
  · rw [if_neg h1]
    by_cases h2 : pySuffix (effFilename inp.filename) ∈ cfg.ALLOWED_EXTENSIONS
    · rw [if_neg (not_not_intro h2)]
      by_cases h3 : inp.dataLen > cfg.MAX_FILE_SIZE_BYTES
      · rw [if_pos h3]
        simp [rejectOutcome]
      · rw [if_neg h3]
        cases hacq : acquireStep st.pool with
        | none => simp [rejectOutcome]
        | some p1 => cases hbk : inp.backend <;> simp
    · rw [if_pos h2]
      simp [rejectOutcome]

/-- Witness for C8: memory at 96% against the 85% threshold — rejected with
no backend call and without reading the payload. -/
theorem C8_preadmission_frame_witness :
    (transcribe_endpoint cfgSmall stFresh { reqOk with memPercent := 96 }).backendCalled
        = false ∧
    (transcribe_endpoint cfgSmall stFresh { reqOk with memPercent := 96 }).payloadRead
        = false :=
  ⟨((C8_preadmission_frame cfgSmall stFresh
      { reqOk with memPercent := 96 }).1 (Or.inl (by decide))).2.2.2,
   (C8_preadmission_frame cfgSmall stFresh
      { reqOk with memPercent := 96 }).2 (by decide)⟩

/-- Claim C10: the guards use strict comparisons at their boundaries:
memory utilization exactly equal to the threshold passes the memory guard
(only strictly greater is rejected, with 503), and a payload whose length
exactly equals `MAX_FILE_SIZE_BYTES` passes the size check (only strictly
greater is rejected, with 413). -/
theorem C10_boundary_strict (cfg : Config) (st : SysState) (inp : EndpointInput) :
    (inp.memPercent = cfg.MAX_MEMORY_THRESHOLD →
      (transcribe_endpoint cfg st inp).rejectedBy ≠ some GuardKind.memory) ∧
    (inp.memPercent > cfg.MAX_MEMORY_THRESHOLD →
      (transcribe_endpoint cfg st inp).rejectedBy = some GuardKind.memory ∧
      (transcribe_endpoint cfg st inp).response.status = 503) ∧
    (inp.memPercent ≤ cfg.MAX_MEMORY_THRESHOLD →
      pySuffix (effFilename inp.filename) ∈ cfg.ALLOWED_EXTENSIONS →
      (inp.dataLen = cfg.MAX_FILE_SIZE_BYTES →
        (transcribe_endpoint cfg st inp).rejectedBy ≠ some GuardKind.size) ∧
      (inp.dataLen > cfg.MAX_FILE_SIZE_BYTES →
        (transcribe_endpoint cfg st inp).rejectedBy = some GuardKind.size ∧
        (transcribe_endpoint cfg st inp).response.status = 413)) := by
  refine ⟨?_, ?_, ?_⟩
  · intro heq
    have h1 : ¬ inp.memPercent > cfg.MAX_MEMORY_THRESHOLD := by
      rw [heq]
      exact lt_irrefl _
    unfold transcribe_endpoint
    rw [if_neg h1]
    by_cases h2 : pySuffix (effFilename inp.filename) ∈ cfg.ALLOWED_EXTENSIONS
    · rw [if_neg (not_not_intro h2)]
      by_cases h3 : inp.dataLen > cfg.MAX_FILE_SIZE_BYTES
      · rw [if_pos h3]
        simp [rejectOutcome]
      · rw [if_neg h3]
        cases hacq : acquireStep st.pool with
        | none => simp [rejectOutcome]
        | some p1 => cases hbk : inp.backend <;> simp
    · rw [if_pos h2]
      simp [rejectOutcome]
  · intro hgt
    unfold transcribe_endpoint
    rw [if_pos hgt]
    simp [rejectOutcome, _http_exception_handler]
  · intro hle h2
    have h1 : ¬ inp.memPercent > cfg.MAX_MEMORY_THRESHOLD := not_lt.mpr hle
    unfold transcribe_endpoint
    rw [if_neg h1, if_neg (not_not_intro h2)]
    constructor
    · intro heq
      have h3 : ¬ inp.dataLen > cfg.MAX_FILE_SIZE_BYTES := by omega
      rw [if_neg h3]
      cases hacq : acquireStep st.pool with
      | none => simp [rejectOutcome]
      | some p1 => cases hbk : inp.backend <;> simp
    · intro h3
      rw [if_pos h3]
      simp [rejectOutcome, _http_exception_handler]

/-- Witness for C10: memory exactly at the 85 threshold and a payload of
exactly 1024 bytes against the 1024-byte limit pass both guards. -/
theorem C10_boundary_strict_witness :
    (transcribe_endpoint cfgSmall stFresh
        { reqOk with memPercent := 85, dataLen := 1024 }).rejectedBy
      ≠ some GuardKind.memory ∧
    (transcribe_endpoint cfgSmall stFresh
        { reqOk with memPercent := 85, dataLen := 1024 }).rejectedBy
      ≠ some GuardKind.size :=
  ⟨(C10_boundary_strict cfgSmall stFresh
      { reqOk with memPercent := 85, dataLen := 1024 }).1 (by decide),
   ((C10_boundary_strict cfgSmall stFresh
      { reqOk with memPercent := 85, dataLen := 1024 }).2.2 (by decide) (by decide)).1
    (by decide)⟩
